import Mathlib

/-!
Verification development for the research-bot pipeline: a shallow embedding
of the multi-source paper search (Semantic Scholar, arXiv, DuckDuckGo), the
title-based deduplicating aggregator, the AI batch summarizer, the query
optimizer and the persistence loop, together with theorems settling the
specified properties.

External HTTP calls are modelled as explicit function parameters returning
`Except Err` values: `.error e` stands for the call raising an exception `e`,
`.ok v` for the parsed response payload.  Python dictionary fields that the
code reads with `dict.get(key, default)` are modelled as `Option` fields
(`none` = key absent or falsy), and `str.lower()` as `strLower`.
-/

abbrev Err := String

/-- The normalized paper record built by each search collaborator
(`paper_info` dictionaries in the source).  `source` is `Option` because the
arXiv collaborator's dictionaries carry no `"source"` key; `published` and
`citationCount` are likewise present only for some sources.  The Python
`year` value is an `int` for arXiv and an `int`-or-`"Unknown"` for Semantic
Scholar; it is uniformly rendered as a string here. -/
structure Paper where
  title : String
  summary : String
  link : Option String
  authors : List String
  published : Option String
  year : String
  publisher : String
  categories : List String
  source : Option String
  citationCount : Option Nat
  deriving Repr, DecidableEq

/-! ### Semantic Scholar collaborator (`semantic_scholar.py`) -/

/-- One author entry of a Semantic Scholar response item: the code reads
`author.get("name", "")`. -/
structure SSAuthor where
  name : Option String
  deriving Repr, DecidableEq

/-- One item of the Semantic Scholar search response (`data` array).
`openAccessPdf = some u` models a truthy `openAccessPdf` dict whose
`url` field is `u`; `arxivId` and `doi` model the truthy values of
`externalIds.ArXiv` and `externalIds.DOI`. -/
structure SSItem where
  title : Option String
  abstract : Option String
  authors : List SSAuthor
  year : Option String
  venue : Option String
  publicationVenueName : Option String
  openAccessPdf : Option (Option String)
  arxivId : Option String
  doi : Option String
  citationCount : Option Nat
  deriving Repr, DecidableEq

/-- The `paper_info` dictionary built for one Semantic Scholar item
(lines 51-78 of `semantic_scholar.py`). -/
def SemanticScholarSearch.extract_paper (item : SSItem) : Paper :=
  let publisher :=
    if item.venue.getD "" ≠ "" then item.venue.getD ""
    else item.publicationVenueName.getD "Unknown"
  let link : Option String :=
    match item.openAccessPdf with
    | some u => u
    | none =>
      match item.arxivId with
      | some aid => some ("https://arxiv.org/pdf/" ++ aid ++ ".pdf")
      | none =>
        match item.doi with
        | some d => some ("https://doi.org/" ++ d)
        | none => none
  { title := item.title.getD "Unknown Title"
    summary := item.abstract.getD "No abstract available"
    link := link
    authors := item.authors.map (fun a => a.name.getD "")
    published := none
    year := item.year.getD "Unknown"
    publisher := publisher
    categories := if publisher ≠ "" ∧ publisher ≠ "Unknown" then [publisher] else []
    source := some "Semantic Scholar"
    citationCount := some (item.citationCount.getD 0) }

/-- `SemanticScholarSearch.search_papers`: the whole retried HTTP exchange is
the parameter `fetch`; any exception in the `try` body is caught inside the
method (`except Exception ... break`), so the method returns the papers
accumulated so far — the empty list in the error case. -/
def SemanticScholarSearch.search_papers
    (fetch : String → Nat → Except Err (List SSItem))
    (query : String) (maxResults : Nat) : List Paper :=
  match fetch query maxResults with
  | .error _ => []
  | .ok items => items.map SemanticScholarSearch.extract_paper

/-! ### arXiv collaborator (`paper_fetcher.py`) -/

/-- One result yielded by `arxiv.Client().results(search)`.  `published` is
the `strftime("%Y-%m-%d")` rendering and `year` the `published.year`. -/
structure ArxivResult where
  title : String
  summary : String
  pdfUrl : Option String
  authors : List String
  published : String
  year : Nat
  primaryCategory : String
  deriving Repr, DecidableEq

/-- The `paper_info` dictionary built for one arXiv result (lines 30-40 of
`paper_fetcher.py`).  Note: no title fallback and no `"source"` key. -/
def arxivPaperInfo (r : ArxivResult) : Paper :=
  { title := r.title
    summary := r.summary.replace "\n" " "
    link := r.pdfUrl
    authors := r.authors
    published := some r.published
    year := toString r.year
    publisher := r.primaryCategory
    categories := [r.primaryCategory]
    source := none
    citationCount := none }

/-- `search_arxiv_papers`: the function has no `try`/`except`, so an
exception from the arXiv client propagates to the caller, modelled by
returning `.error`. -/
def search_arxiv_papers
    (fetch : String → Nat → Except Err (List ArxivResult))
    (query : String) (maxResults : Nat) : Except Err (List Paper) :=
  match fetch query maxResults with
  | .error e => .error e
  | .ok rs => .ok (rs.map arxivPaperInfo)

/-! ### DuckDuckGo collaborator (`ddg_paper_search.py`) -/

/-- One raw DuckDuckGo text-search result (`title`, `body`, `href` keys). -/
structure DdgResult where
  title : Option String
  body : Option String
  href : Option String
  deriving Repr, DecidableEq

/-- The regex-based field heuristics `_extract_year`, `_extract_authors` and
`_extract_publisher` of `ddg_paper_search.py`, kept as parameters: no claim
depends on their behaviour, only on where their outputs are placed. -/
structure DdgHeuristics where
  extractYear : String → String
  extractAuthors : String → List String
  extractPublisher : String → String → String

/-- Python's `needle in haystack` substring test on character lists. -/
def hasSub (needle : List Char) : List Char → Bool
  | [] => needle.isEmpty
  | c :: t => needle.isPrefixOf (c :: t) || hasSub needle t

/-- Python's `needle in haystack` on strings. -/
def containsStr (haystack needle : String) : Bool :=
  hasSub needle.toList haystack.toList

/-- Python's `str.lower()`, modelled as character-wise lowercasing. -/
def strLower (s : String) : String :=
  String.mk (s.data.map Char.toLower)

/-- The domain allowlist of `_is_academic_result`. -/
def DuckDuckGoSearch.academic_domains : List String :=
  ["arxiv.org", "doi.org", "scholar.google", "researchgate.net",
   "semanticscholar.org", "ieee.org", "acm.org", "springer.com",
   "sciencedirect.com", "nature.com", "plos.org", "biorxiv.org",
   "medrxiv.org", "openreview.net", "proceedings.mlr.press", "jmlr.org",
   "neurips.cc", "aclweb.org", "cvf.com"]

/-- The title keyword list of `_is_academic_result`. -/
def DuckDuckGoSearch.academic_keywords : List String :=
  ["paper", "research", "study", "analysis", "conference", "journal"]

/-- `DuckDuckGoSearch._is_academic_result` (lines 51-93). -/
def DuckDuckGoSearch.is_academic_result (r : DdgResult) : Bool :=
  let url := strLower (r.href.getD "")
  let title := strLower (r.title.getD "")
  if DuckDuckGoSearch.academic_domains.any (fun d => containsStr url d) then true
  else if containsStr url ".pdf" || containsStr url "pdf" then true
  else if DuckDuckGoSearch.academic_keywords.any (fun k => containsStr title k) then true
  else false

/-- `DuckDuckGoSearch._extract_paper_info` (lines 95-121). -/
def DuckDuckGoSearch.extract_paper_info (h : DdgHeuristics) (r : DdgResult) : Paper :=
  let title := r.title.getD "Unknown Title"
  let body := r.body.getD ""
  let url := r.href.getD ""
  { title := title
    summary := if body ≠ "" then body.take 500 else "No summary available"
    link := some url
    authors := h.extractAuthors body
    published := none
    year := h.extractYear (title ++ " " ++ body)
    publisher := h.extractPublisher url body
    categories := ["Web Search"]
    source := some "DuckDuckGo"
    citationCount := none }

/-- The result loop of `DuckDuckGoSearch.search_papers`: skip non-academic
results, append the extracted record, and break once
`len(papers) >= max_results` — a check made only after an append. -/
def DuckDuckGoSearch.collect (h : DdgHeuristics) (maxResults : Nat) :
    List DdgResult → List Paper → List Paper
  | [], papers => papers
  | r :: rest, papers =>
    if ¬ DuckDuckGoSearch.is_academic_result r then
      DuckDuckGoSearch.collect h maxResults rest papers
    else
      let papers' := papers ++ [DuckDuckGoSearch.extract_paper_info h r]
      if maxResults ≤ papers'.length then papers'
      else DuckDuckGoSearch.collect h maxResults rest papers'

/-- The query actually sent to the engine:
`search_query = f"{query} research paper pdf"`. -/
def ddgSentQuery (query : String) : String :=
  query ++ " research paper pdf"

/-- `DuckDuckGoSearch.search_papers` (lines 12-49): sends the suffixed query
asking for `max_results * 3` raw results, filters and caps them; any
exception is caught inside the method and the papers accumulated so far
(modelled as none) are returned. -/
def DuckDuckGoSearch.search_papers (h : DdgHeuristics)
    (fetch : String → Nat → Except Err (List DdgResult))
    (query : String) (maxResults : Nat) : List Paper :=
  match fetch (ddgSentQuery query) (maxResults * 3) with
  | .error _ => []
  | .ok results => DuckDuckGoSearch.collect h maxResults results []

/-! ### Aggregator (`multi_source_search.py`) -/

/-- The deduplication key: `paper["title"].lower()`. -/
def titleKey (p : Paper) : String :=
  strLower p.title

/-- One of the three per-source deduplication loops of `search_all_sources`:
threads the pair `(all_papers, seen_titles)`; a record is appended only if
its lower-cased title is not yet in `seen_titles`, and the set is updated
immediately upon appending. -/
def dedupInto : List Paper × List String → List Paper → List Paper × List String
  | st, [] => st
  | (acc, seen), p :: ps =>
    if titleKey p ∈ seen then dedupInto (acc, seen) ps
    else dedupInto (acc ++ [p], titleKey p :: seen) ps

/-- The `all_papers` list after the three dedup loops of
`search_all_sources` have run (Semantic Scholar, then arXiv, then
DuckDuckGo), starting from an empty list and an empty seen set. -/
def mergedPapers (ss ar ddg : List Paper) : List Paper :=
  (dedupInto (dedupInto (dedupInto ([], []) ss) ar) ddg).1

/-- The `query` argument of `search_all_sources`: either one string or a
per-source dictionary. -/
structure Queries where
  semanticScholar : Option String
  arxiv : Option String
  duckduckgo : Option String
  deriving Repr, DecidableEq

inductive QueryInput where
  | str (q : String)
  | dict (qs : Queries)
  deriving Repr, DecidableEq

/-- Lines 19-26 of `multi_source_search.py`: a string query is used for all
three sources, a dictionary is used as given. -/
def queriesOf : QueryInput → Queries
  | .str q => ⟨some q, some q, some q⟩
  | .dict qs => qs

/-- `search_all_sources` (lines 6-70 of `multi_source_search.py`): queries
the three collaborators sequentially, deduplicates into one list and
truncates to `maxResults`.  The function body has no `try`/`except`, so an
exception raised by `search_arxiv_papers` propagates (`.error`); the other
two collaborators catch internally and contribute the empty list on
failure. -/
def search_all_sources (qin : QueryInput)
    (ssFetch : String → Nat → Except Err (List SSItem))
    (arxivFetch : String → Nat → Except Err (List ArxivResult))
    (ddgFetch : String → Nat → Except Err (List DdgResult))
    (h : DdgHeuristics) (maxResults : Nat) : Except Err (List Paper) :=
  let queries := queriesOf qin
  let ss := SemanticScholarSearch.search_papers ssFetch
    (queries.semanticScholar.getD "") maxResults
  match search_arxiv_papers arxivFetch (queries.arxiv.getD "") maxResults with
  | .error e => .error e
  | .ok ar =>
    let ddg := DuckDuckGoSearch.search_papers h ddgFetch
      (queries.duckduckgo.getD "") maxResults
    .ok ((mergedPapers ss ar ddg).take maxResults)

/-! ### Query optimizer (`query_optimizer.py`) -/

/-- Python dictionary lookup `d.get(k)` on a JSON-object association list. -/
def dictGet (d : List (String × String)) (k : String) : Option String :=
  (d.find? (fun kv => kv.1 == k)).map (fun kv => kv.2)

/-- Python dictionary assignment `d[k] = v`: replace the value when the key
is present, otherwise append the binding. -/
def dictSet (d : List (String × String)) (k v : String) : List (String × String) :=
  if d.any (fun kv => kv.1 == k) then
    d.map (fun kv => if kv.1 == k then (k, v) else kv)
  else d ++ [(k, v)]

/-- `QueryOptimizer.optimize_query` (lines 17-104 of `query_optimizer.py`).
`response` is the outcome of the Gemini call followed by markdown stripping
and `json.loads`: `.error` covers both exceptions from the call and JSON
parse failures; `.ok kvs` is the successfully parsed JSON object.  On
success the code adds `optimized['original'] = user_query` and returns the
parsed dictionary as-is; on any failure it returns the four-key fallback. -/
def QueryOptimizer.optimize_query (userQuery : String)
    (response : Except Err (List (String × String))) : List (String × String) :=
  match response with
  | .ok kvs => dictSet kvs "original" userQuery
  | .error _ =>
    [("semantic_scholar", userQuery), ("arxiv", userQuery),
     ("duckduckgo", userQuery), ("original", userQuery)]

/-! ### Batch summarizer (`llm_translator.py`) -/

/-- Input record of `analyze_papers_batch`: a dict with `title`, `abstract`
and `authors` keys (built by `main.py` lines 72-79, where all three keys are
always present). -/
structure PaperData where
  title : String
  abstract : String
  authors : List String
  deriving Repr, DecidableEq

/-- One element of the JSON array returned by the AI: the code reads
`item.get("paper_index", 0)` (any integer) and the three summary fields. -/
structure BatchItem where
  paperIndex : Int
  shortSummary : Option String
  detailedSummary : Option String
  architecture : Option String
  deriving Repr, DecidableEq

/-- The summary dictionary produced per paper. -/
structure Summary where
  shortSummary : String
  detailedSummary : String
  architecture : String
  deriving Repr, DecidableEq

/-- The placeholder written into `results` before the response is applied. -/
def emptySummary : Summary :=
  ⟨"요약 없음", "", ""⟩

/-- The placeholder returned for every paper on total parse failure. -/
def batchFailSummary : Summary :=
  ⟨"배치 요약 실패", "", ""⟩

/-- The response-application loop of `analyze_papers_batch` (lines 194-201):
for each response item, `idx = item.get("paper_index", 0) - 1`, and
`results[idx]` is overwritten only when `0 <= idx < len(results)`. -/
def applyBatchItems (items : List BatchItem) (results : List Summary) : List Summary :=
  items.foldl (fun rs item =>
    let idx : Int := item.paperIndex - 1
    if 0 ≤ idx ∧ idx < (rs.length : Int) then
      rs.set idx.toNat
        ⟨item.shortSummary.getD "요약 실패",
         item.detailedSummary.getD "",
         item.architecture.getD ""⟩
    else rs) results

/-- `GeminiTranslator.analyze_papers_batch` (lines 120-213).  `parsed` is
the outcome of the AI call followed by `json.loads` and the list check:
`.error` covers quota exhaustion, exceptions, unparseable JSON and a
non-array response — all caught by the method's `except` clause, which
returns one placeholder per input paper.  `usedModel` is the
`self.last_used_model` value captured after the call. -/
def GeminiTranslator.analyze_papers_batch (papersData : List PaperData)
    (parsed : Except Err (List BatchItem)) (usedModel : String) :
    List Summary × String :=
  match papersData with
  | [] => ([], "none")
  | _ =>
    match parsed with
    | .error _ => (papersData.map (fun _ => batchFailSummary), usedModel)
    | .ok items =>
      (applyBatchItems items (papersData.map (fun _ => emptySummary)), usedModel)

/-! ### Persistence (`notion_client_wrapper.py`, `main.py`) -/

/-- `NotionManager.add_paper` (lines 129-208): raises when `database_id` is
empty, then performs one `pages.create` call (`create` models its outcome);
the `except` clause re-raises, so the error reaches the caller and no retry
happens inside `add_paper`. -/
def NotionManager.add_paper (databaseId : String)
    (create : Except Err Unit) : Except Err Unit :=
  if databaseId = "" then .error "Database ID is required."
  else create

/-- The per-record persistence loop of `main` (lines 90-124): each record's
`add_paper` call sits in its own `try`/`except` whose handler logs and
`continue`s, so the loop always visits every record exactly once; the
returned list records, in input order, whether each record persisted. -/
def mainSaveLoop (databaseId : String) (create : Paper → Except Err Unit) :
    List Paper → List Bool
  | [] => []
  | p :: rest =>
    (match NotionManager.add_paper databaseId (create p) with
     | .ok _ => true
     | .error _ => false) :: mainSaveLoop databaseId create rest

/-! ### Concrete fixtures

Concrete collaborator responses used to evaluate the definitions on closed
inputs.  `trivialHeuristics` instantiates the regex-heuristic parameters
with constant functions. -/

def trivialHeuristics : DdgHeuristics :=
  ⟨fun _ => "Unknown", fun _ => ["Unknown"], fun _ _ => "Web"⟩

def itemA : SSItem :=
  ⟨some "A", none, [], none, none, none, none, none, none, none⟩

def itemB : SSItem :=
  ⟨some "B", none, [], none, none, none, none, none, none, none⟩

def itemNoTitle : SSItem :=
  ⟨none, none, [], none, none, none, none, none, none, none⟩

/-- An arXiv result whose title is the case variant of `itemB`'s. -/
def arxB : ArxivResult :=
  ⟨"b", "an abstract", none, ["X Y"], "2020-01-01", 2020, "cs.LG"⟩

def arxC : ArxivResult :=
  ⟨"C", "another abstract", none, ["Z W"], "2021-01-01", 2021, "cs.CV"⟩

/-- An arXiv result whose feed title is the empty string. -/
def arxEmptyTitle : ArxivResult :=
  ⟨"", "an abstract", none, [], "2020-01-01", 2020, "cs.LG"⟩

/-- A DuckDuckGo result passing the academic filter via its domain. -/
def ddgAcademic : DdgResult :=
  ⟨some "Some Research Paper", some "a body", some "https://arxiv.org/abs/1706.03762"⟩

/-- A DuckDuckGo result failing the academic filter. -/
def ddgNonAcademic : DdgResult :=
  ⟨some "zzz", none, some "https://example.com/page"⟩

def ddgNoTitle : DdgResult :=
  ⟨none, none, none⟩

def ssFetchAB : String → Nat → Except Err (List SSItem) :=
  fun _ _ => .ok [itemA, itemB]

def ssFetchErr : String → Nat → Except Err (List SSItem) :=
  fun _ _ => .error "semantic scholar down"

def arxFetchB : String → Nat → Except Err (List ArxivResult) :=
  fun _ _ => .ok [arxB]

def arxFetchC : String → Nat → Except Err (List ArxivResult) :=
  fun _ _ => .ok [arxC]

def arxFetchErr : String → Nat → Except Err (List ArxivResult) :=
  fun _ _ => .error "arxiv down"

def ddgFetchEmpty : String → Nat → Except Err (List DdgResult) :=
  fun _ _ => .ok []

def ddgFetchErr : String → Nat → Except Err (List DdgResult) :=
  fun _ _ => .error "ddg down"

def ddgFetchAcademic : String → Nat → Except Err (List DdgResult) :=
  fun _ _ => .ok [ddgAcademic]

def ddgFetchMixed : String → Nat → Except Err (List DdgResult) :=
  fun _ _ => .ok [ddgNonAcademic, ddgAcademic]

def c5Papers : List PaperData :=
  [⟨"T1", "A1", []⟩, ⟨"T2", "A2", []⟩]

/-- A batch response addressing only paper 1, omitting paper 2. -/
def c5Items : List BatchItem :=
  [⟨1, some "s1", some "d1", some "a1"⟩]

/-! ### Deduplication theory

`dedupInto` threaded over the three source lists equals a single
first-occurrence filter `nubSeen` over their concatenation; the lemmas below
characterize it. -/

/-- First-occurrence filter: keep a record when its `titleKey` has not been
seen, extending the seen set as we go. -/
def nubSeen (seen : List String) : List Paper → List Paper
  | [] => []
  | p :: ps =>
    if titleKey p ∈ seen then nubSeen seen ps
    else p :: nubSeen (titleKey p :: seen) ps

theorem dedupInto_append (st : List Paper × List String) (xs ys : List Paper) :
    dedupInto st (xs ++ ys) = dedupInto (dedupInto st xs) ys := by
  induction xs generalizing st with
  | nil => rfl
  | cons p ps ih =>
    obtain ⟨acc, seen⟩ := st
    simp only [List.cons_append, dedupInto]
    split <;> exact ih _

theorem dedupInto_fst (l : List Paper) (acc : List Paper) (seen : List String) :
    (dedupInto (acc, seen) l).1 = acc ++ nubSeen seen l := by
  induction l generalizing acc seen with
  | nil => simp [dedupInto, nubSeen]
  | cons p ps ih =>
    by_cases hmem : titleKey p ∈ seen <;>
      simp [dedupInto, nubSeen, hmem, ih]

theorem mergedPapers_eq_nubSeen (ss ar ddg : List Paper) :
    mergedPapers ss ar ddg = nubSeen [] (ss ++ ar ++ ddg) := by
  unfold mergedPapers
  rw [← dedupInto_append, ← dedupInto_append]
  simpa using dedupInto_fst (ss ++ ar ++ ddg) [] []

theorem nubSeen_mem_key_not_seen (l : List Paper) (seen : List String) :
    ∀ p ∈ nubSeen seen l, titleKey p ∉ seen := by
  induction l generalizing seen with
  | nil => simp [nubSeen]
  | cons q qs ih =>
    by_cases hmem : titleKey q ∈ seen
    · simpa [nubSeen, hmem] using ih seen
    · intro p hp
      simp only [nubSeen, hmem, if_neg, ite_false, List.mem_cons] at hp
      rcases hp with rfl | hp
      · exact hmem
      · intro hps
        exact ih (titleKey q :: seen) p hp (List.mem_cons_of_mem _ hps)

theorem nubSeen_keys_nodup (l : List Paper) (seen : List String) :
    ((nubSeen seen l).map titleKey).Nodup := by
  induction l generalizing seen with
  | nil => simp [nubSeen]
  | cons p ps ih =>
    by_cases hmem : titleKey p ∈ seen
    · simpa [nubSeen, hmem] using ih seen
    · simp only [nubSeen, hmem, ite_false, List.map_cons, List.nodup_cons]
      refine ⟨?_, ih (titleKey p :: seen)⟩
      intro hcontra
      rcases List.mem_map.mp hcontra with ⟨q, hq, hkq⟩
      exact nubSeen_mem_key_not_seen ps (titleKey p :: seen) q hq
        (hkq ▸ List.mem_cons_self _ _)

theorem nubSeen_subset (l : List Paper) (seen : List String) :
    ∀ p ∈ nubSeen seen l, p ∈ l := by
  induction l generalizing seen with
  | nil => simp [nubSeen]
  | cons q qs ih =>
    intro p hp
    by_cases hmem : titleKey q ∈ seen
    · simp only [nubSeen, hmem, ite_true] at hp
      exact List.mem_cons_of_mem _ (ih seen p hp)
    · simp only [nubSeen, hmem, ite_false, List.mem_cons] at hp
      rcases hp with rfl | hp
      · exact List.mem_cons_self _ _
      · exact List.mem_cons_of_mem _ (ih (titleKey q :: seen) p hp)

theorem nubSeen_find? (l : List Paper) (seen : List String) (t : String)
    (ht : t ∉ seen) :
    (nubSeen seen l).find? (fun p => titleKey p == t)
      = l.find? (fun p => titleKey p == t) := by
  induction l generalizing seen with
  | nil => simp [nubSeen]
  | cons p ps ih =>
    by_cases hmem : titleKey p ∈ seen
    · have hne : ¬ ((titleKey p == t) = true) := by
        simp only [beq_iff_eq]
        intro hpt
        exact ht (hpt ▸ hmem)
      rw [show nubSeen seen (p :: ps) = nubSeen seen ps by simp [nubSeen, hmem]]
      rw [List.find?_cons_of_neg (p := fun q => titleKey q == t) _ hne]
      exact ih seen ht
    · rw [show nubSeen seen (p :: ps) = p :: nubSeen (titleKey p :: seen) ps by
        simp [nubSeen, hmem]]
      by_cases hpt : titleKey p = t
      · have hpos : (titleKey p == t) = true := by simpa using hpt
        rw [List.find?_cons_of_pos (p := fun q => titleKey q == t) _ hpos,
          List.find?_cons_of_pos (p := fun q => titleKey q == t) _ hpos]
      · have hneg : ¬ ((titleKey p == t) = true) := by simpa using hpt
        have ht' : t ∉ titleKey p :: seen := by
          simp only [List.mem_cons]
          rintro (rfl | hts)
          · exact hpt rfl
          · exact ht hts
        rw [List.find?_cons_of_neg (p := fun q => titleKey q == t) _ hneg,
          List.find?_cons_of_neg (p := fun q => titleKey q == t) _ hneg]
        exact ih (titleKey p :: seen) ht'

theorem nubSeen_eq_self (l : List Paper) (seen : List String)
    (hnd : (l.map titleKey).Nodup) (hdisj : ∀ p ∈ l, titleKey p ∉ seen) :
    nubSeen seen l = l := by
  induction l generalizing seen with
  | nil => rfl
  | cons p ps ih =>
    simp only [List.map_cons, List.nodup_cons] at hnd
    have hmem : titleKey p ∉ seen := hdisj p (List.mem_cons_self _ _)
    simp only [nubSeen, hmem, ite_false]
    congr 1
    refine ih (titleKey p :: seen) hnd.2 ?_
    intro q hq
    simp only [List.mem_cons]
    rintro (hqp | hqseen)
    · exact hnd.1 (hqp ▸ List.mem_map_of_mem titleKey hq)
    · exact hdisj q (List.mem_cons_of_mem _ hq) hqseen

theorem countP_key_le_one (l : List Paper)
    (hnd : (l.map titleKey).Nodup) (t : String) :
    l.countP (fun p => titleKey p == t) ≤ 1 := by
  induction l with
  | nil => simp
  | cons p ps ih =>
    simp only [List.map_cons, List.nodup_cons] at hnd
    by_cases hpt : titleKey p = t
    · have hzero : ps.countP (fun q => titleKey q == t) = 0 := by
        rw [List.countP_eq_zero]
        intro q hq
        simp only [beq_iff_eq]
        intro hqt
        exact hnd.1 ((hqt.trans hpt.symm) ▸ List.mem_map_of_mem titleKey hq)
      simp [List.countP_cons, hpt, hzero]
    · simp only [List.countP_cons, beq_iff_eq, hpt, if_false, ite_false,
        Nat.add_zero]
      exact ih hnd.2

/-! ### DuckDuckGo loop lemmas -/

theorem ddgCollect_length_le (h : DdgHeuristics) (n : Nat)
    (rs : List DdgResult) (acc : List Paper) (hacc : acc.length < n) :
    (DuckDuckGoSearch.collect h n rs acc).length ≤ n := by
  induction rs generalizing acc with
  | nil => exact Nat.le_of_lt hacc
  | cons r rest ih =>
    simp only [DuckDuckGoSearch.collect]
    split
    · exact ih acc hacc
    · split
      · simp only [List.length_append, List.length_cons, List.length_nil]
        omega
      · apply ih
        rename_i hlt
        simp only [List.length_append, List.length_cons, List.length_nil] at hlt ⊢
        omega

theorem ddgCollect_mem (h : DdgHeuristics) (n : Nat)
    (rs : List DdgResult) (acc : List Paper) :
    ∀ p ∈ DuckDuckGoSearch.collect h n rs acc,
      p ∈ acc ∨ ∃ r ∈ rs, DuckDuckGoSearch.is_academic_result r ∧
        p = DuckDuckGoSearch.extract_paper_info h r := by
  induction rs generalizing acc with
  | nil =>
    intro p hp
    exact Or.inl hp
  | cons r rest ih =>
    intro p hp
    simp only [DuckDuckGoSearch.collect] at hp
    split at hp
    · rcases ih acc p hp with hacc | ⟨r', hr', hca, hpe⟩
      · exact Or.inl hacc
      · exact Or.inr ⟨r', List.mem_cons_of_mem _ hr', hca, hpe⟩
    · rename_i hcad
      rw [Decidable.not_not] at hcad
      have hres : p ∈ acc ++ [DuckDuckGoSearch.extract_paper_info h r] →
          p ∈ acc ∨ ∃ r' ∈ r :: rest, DuckDuckGoSearch.is_academic_result r' ∧
            p = DuckDuckGoSearch.extract_paper_info h r' := by
        intro hin
        rcases List.mem_append.mp hin with hl | hr'
        · exact Or.inl hl
        · refine Or.inr ⟨r, List.mem_cons_self _ _, hcad, ?_⟩
          simpa using hr'
      split at hp
      · exact hres hp
      · rcases ih _ p hp with hin | ⟨r', hr', hca, hpe⟩
        · exact hres hin
        · exact Or.inr ⟨r', List.mem_cons_of_mem _ hr', hca, hpe⟩

/-! ### Batch summarizer lemmas -/

theorem applyBatchItems_length (items : List BatchItem) (rs : List Summary) :
    (applyBatchItems items rs).length = rs.length := by
  induction items generalizing rs with
  | nil => rfl
  | cons it its ih =>
    simp only [applyBatchItems, List.foldl_cons] at *
    rw [ih]
    split
    · exact List.length_set _ _ _
    · rfl

theorem applyBatchItems_get_untouched (items : List BatchItem)
    (rs : List Summary) (i : Nat)
    (hit : ∀ it ∈ items, it.paperIndex ≠ (i : Int) + 1) :
    (applyBatchItems items rs)[i]? = rs[i]? := by
  induction items generalizing rs with
  | nil => rfl
  | cons it its ih =>
    simp only [applyBatchItems, List.foldl_cons] at *
    rw [ih _ (fun x hx => hit x (List.mem_cons_of_mem _ hx))]
    split
    · rename_i hcond
      have hneq : (it.paperIndex - 1).toNat ≠ i := by
        have h1 := hit it (List.mem_cons_self _ _)
        omega
      exact List.getElem?_set_ne hneq
    · rfl

/-! ### Dictionary lemmas for the query optimizer -/

theorem find?_key_map_replace (d : List (String × String)) (k v : String)
    (hany : d.any (fun kv => kv.1 == k) = true) :
    (d.map (fun kv => if kv.1 == k then (k, v) else kv)).find? (fun kv => kv.1 == k)
      = some (k, v) := by
  induction d with
  | nil => simp at hany
  | cons kv0 t ih =>
    by_cases h0 : (kv0.1 == k) = true
    · simp only [List.map_cons, if_pos h0]
      exact List.find?_cons_of_pos
        (p := fun kv : String × String => kv.1 == k) _ (by simp)
    · simp only [List.map_cons, if_neg h0]
      rw [List.find?_cons_of_neg
        (p := fun kv : String × String => kv.1 == k) _ (by simpa using h0)]
      apply ih
      simpa [h0] using hany

theorem find?_key_append_new (d : List (String × String)) (k v : String)
    (hnone : d.any (fun kv => kv.1 == k) = false) :
    (d ++ [(k, v)]).find? (fun kv => kv.1 == k) = some (k, v) := by
  induction d with
  | nil =>
    simp only [List.nil_append]
    exact List.find?_cons_of_pos
      (p := fun kv : String × String => kv.1 == k) _ (by simp)
  | cons kv0 t ih =>
    simp only [List.any_cons, Bool.or_eq_false_iff] at hnone
    simp only [List.cons_append]
    rw [List.find?_cons_of_neg
      (p := fun kv : String × String => kv.1 == k) _ (by simp [hnone.1])]
    exact ih hnone.2

theorem dictGet_dictSet (d : List (String × String)) (k v : String) :
    dictGet (dictSet d k v) k = some v := by
  unfold dictGet dictSet
  cases hany : d.any (fun kv => kv.1 == k) with
  | true =>
    rw [if_pos rfl, find?_key_map_replace d k v hany]
    rfl
  | false =>
    rw [if_neg (by simp), find?_key_append_new d k v hany]
    rfl

/-! ### Claim theorems -/

/-- C1 counterexample: with the Semantic Scholar and DuckDuckGo responses
fixed and the arXiv collaborator raising, `search_all_sources` propagates
the exception instead of catching it at the call site and returning the
union of the remaining sources' results. -/
theorem c1_error_propagation_counterexample :
    search_all_sources (.str "q") ssFetchAB arxFetchErr ddgFetchEmpty
      trivialHeuristics 10 = .error "arxiv down" := rfl

/-- C1 (amended): failures of the Semantic Scholar and DuckDuckGo
collaborators are caught inside those collaborators and treated as zero
results, so aggregation continues with the arXiv results alone; but an
exception from the arXiv collaborator is not caught anywhere in
`search_all_sources` and propagates to the caller. -/
theorem c1_partial_failure (qin : QueryInput)
    (ssFetch : String → Nat → Except Err (List SSItem))
    (arxivFetch : String → Nat → Except Err (List ArxivResult))
    (ddgFetch : String → Nat → Except Err (List DdgResult))
    (heur : DdgHeuristics) (n : Nat) (es ed : Err) (ar : List ArxivResult)
    (hss : ssFetch ((queriesOf qin).semanticScholar.getD "") n = .error es)
    (hddg : ddgFetch (ddgSentQuery ((queriesOf qin).duckduckgo.getD "")) (n * 3)
      = .error ed)
    (har : arxivFetch ((queriesOf qin).arxiv.getD "") n = .ok ar) :
    search_all_sources qin ssFetch arxivFetch ddgFetch heur n
      = .ok ((mergedPapers [] (ar.map arxivPaperInfo) []).take n) ∧
    ∀ (arxivFetch2 : String → Nat → Except Err (List ArxivResult)) (e : Err),
      arxivFetch2 ((queriesOf qin).arxiv.getD "") n = .error e →
      search_all_sources qin ssFetch arxivFetch2 ddgFetch heur n = .error e := by
  constructor
  · simp only [search_all_sources, SemanticScholarSearch.search_papers,
      search_arxiv_papers, DuckDuckGoSearch.search_papers, hss, hddg, har]
  · intro arxivFetch2 e hf2
    simp only [search_all_sources, search_arxiv_papers, hf2]

/-- C1 witness: concrete instantiation of both halves of
`c1_partial_failure`. -/
theorem c1_partial_failure_witness :
    search_all_sources (.str "q") ssFetchErr arxFetchB ddgFetchErr
        trivialHeuristics 5
      = .ok ((mergedPapers [] ([arxB].map arxivPaperInfo) []).take 5) ∧
    search_all_sources (.str "q") ssFetchErr arxFetchErr ddgFetchErr
        trivialHeuristics 5
      = .error "arxiv down" :=
  ⟨(c1_partial_failure (.str "q") ssFetchErr arxFetchB ddgFetchErr
      trivialHeuristics 5 "semantic scholar down" "ddg down" [arxB]
      rfl rfl rfl).1,
   (c1_partial_failure (.str "q") ssFetchErr arxFetchB ddgFetchErr
      trivialHeuristics 5 "semantic scholar down" "ddg down" [arxB]
      rfl rfl rfl).2 arxFetchErr "arxiv down" rfl⟩

/-- C4: the list returned by `search_all_sources` has length at most
`maxResults`, and is empty when `maxResults = 0`; the bound comes from the
final truncation of the merged list. -/
theorem c4_truncation (qin : QueryInput)
    (ssFetch : String → Nat → Except Err (List SSItem))
    (arxivFetch : String → Nat → Except Err (List ArxivResult))
    (ddgFetch : String → Nat → Except Err (List DdgResult))
    (heur : DdgHeuristics) (n : Nat) (l : List Paper)
    (hok : search_all_sources qin ssFetch arxivFetch ddgFetch heur n = .ok l) :
    l.length ≤ n ∧ (n = 0 → l = []) := by
  simp only [search_all_sources] at hok
  rcases hcase : search_arxiv_papers arxivFetch ((queriesOf qin).arxiv.getD "") n
    with e | ar
  · rw [hcase] at hok
    exact absurd hok (by simp)
  · rw [hcase] at hok
    rw [Except.ok.injEq] at hok
    subst hok
    constructor
    · simp [List.length_take]
    · intro h0
      subst h0
      simp

/-- C4 witness: with every collaborator returning results and
`maxResults = 0`, the output is the empty list. -/
theorem c4_truncation_witness :
    ([] : List Paper).length ≤ 0 ∧ (0 = 0 → ([] : List Paper) = []) :=
  c4_truncation (.str "q") ssFetchAB arxFetchC ddgFetchAcademic
    trivialHeuristics 0 [] rfl

/-- C6 counterexample: an arXiv feed entry with an empty title string
produces a collaborator record with an empty title — no sentinel is
substituted on the arXiv path. -/
theorem c6_empty_title_counterexample :
    search_arxiv_papers (fun _ _ => .ok [arxEmptyTitle]) "q" 5
      = .ok [arxivPaperInfo arxEmptyTitle] ∧
    (arxivPaperInfo arxEmptyTitle).title = "" :=
  ⟨rfl, rfl⟩

/-- C6 (amended): the Semantic Scholar and DuckDuckGo collaborators
substitute the sentinel `"Unknown Title"` only when the response has no
title field; the arXiv collaborator uses the feed title verbatim with no
fallback, so a record title is empty exactly when the source supplies an
empty title. -/
theorem c6_title_fallbacks (item : SSItem) (heur : DdgHeuristics)
    (r : DdgResult) (a : ArxivResult)
    (hitem : item.title = none) (hr : r.title = none) :
    (SemanticScholarSearch.extract_paper item).title = "Unknown Title" ∧
    (DuckDuckGoSearch.extract_paper_info heur r).title = "Unknown Title" ∧
    (arxivPaperInfo a).title = a.title := by
  refine ⟨?_, ?_, rfl⟩
  · simp [SemanticScholarSearch.extract_paper, hitem]
  · simp [DuckDuckGoSearch.extract_paper_info, hr]

/-- C6 witness: the fallbacks evaluated on concrete title-less responses. -/
theorem c6_title_fallbacks_witness :
    (SemanticScholarSearch.extract_paper itemNoTitle).title = "Unknown Title" ∧
    (DuckDuckGoSearch.extract_paper_info trivialHeuristics ddgNoTitle).title
      = "Unknown Title" ∧
    (arxivPaperInfo arxC).title = arxC.title :=
  c6_title_fallbacks itemNoTitle trivialHeuristics ddgNoTitle arxC rfl rfl

/-- C7 counterexample: a record produced by the arXiv collaborator carries
no `source` field at all, so not every pipeline record has a source equal
to one of the three collaborator names. -/
theorem c7_source_counterexample :
    search_arxiv_papers arxFetchC "q" 5 = .ok [arxivPaperInfo arxC] ∧
    (arxivPaperInfo arxC).source = none :=
  ⟨rfl, rfl⟩

/-- C7 (amended): Semantic Scholar records carry source
`"Semantic Scholar"` and DuckDuckGo records carry `"DuckDuckGo"`, but arXiv
records carry no source field (downstream readers default it to
`"Unknown"`). -/
theorem c7_source_fields (item : SSItem) (heur : DdgHeuristics)
    (r : DdgResult) (a : ArxivResult) :
    (SemanticScholarSearch.extract_paper item).source = some "Semantic Scholar" ∧
    (DuckDuckGoSearch.extract_paper_info heur r).source = some "DuckDuckGo" ∧
    (arxivPaperInfo a).source = none :=
  ⟨rfl, rfl, rfl⟩

/-- C9: the persistence loop of `main` visits every record exactly once, in
order; the outcome recorded for record `i` is exactly the outcome of its
own `add_paper` call, so a failure at one index neither aborts nor alters
the processing of any later index, and no retry occurs. -/
theorem c9_persistence_isolation (databaseId : String)
    (create : Paper → Except Err Unit) (papers : List Paper) :
    (mainSaveLoop databaseId create papers).length = papers.length ∧
    (∀ (p : Paper) (rest : List Paper),
      mainSaveLoop databaseId create (p :: rest)
        = (match NotionManager.add_paper databaseId (create p) with
           | .ok _ => true
           | .error _ => false) :: mainSaveLoop databaseId create rest) ∧
    (∀ i : Nat, (mainSaveLoop databaseId create papers)[i]?
        = (papers[i]?).map (fun p =>
            match NotionManager.add_paper databaseId (create p) with
            | .ok _ => true
            | .error _ => false)) := by
  refine ⟨?_, fun p rest => rfl, ?_⟩
  · induction papers with
    | nil => rfl
    | cons p rest ih => simp [mainSaveLoop, ih]
  · intro i
    induction papers generalizing i with
    | nil => simp [mainSaveLoop]
    | cons p rest ih =>
      cases i with
      | zero => simp [mainSaveLoop]
      | succ j => simpa [mainSaveLoop] using ih j

/-- C2 counterexample: `itemB`'s record and `arxB`'s record have
case-insensitively equal titles, yet with `max_results = 1` the output of
`search_all_sources` contains zero records with that normalized title
(not exactly one): truncation discards the surviving duplicate. -/
theorem c2_exactly_one_counterexample :
    titleKey (SemanticScholarSearch.extract_paper itemB)
      = titleKey (arxivPaperInfo arxB) ∧
    SemanticScholarSearch.extract_paper itemB
      ∈ SemanticScholarSearch.search_papers ssFetchAB "q" 1 ∧
    search_arxiv_papers arxFetchB "q" 1 = .ok [arxivPaperInfo arxB] ∧
    search_all_sources (.str "q") ssFetchAB arxFetchB ddgFetchEmpty
        trivialHeuristics 1
      = .ok [SemanticScholarSearch.extract_paper itemA] ∧
    [SemanticScholarSearch.extract_paper itemA].countP
      (fun r => titleKey r == titleKey (SemanticScholarSearch.extract_paper itemB))
      = 0 := by
  refine ⟨by decide, ?_, rfl, rfl, by decide⟩
  exact List.mem_cons_of_mem _ (List.mem_cons_self _ _)

/-- C2 (amended): among the records the three collaborators return, the
merged list built by the dedup loops contains exactly one record per
normalized title, namely the first one in source-priority order (Semantic
Scholar, then arXiv, then DuckDuckGo, and within a source the earlier
record); the final output, truncated to `max_results`, contains at most one
record with that normalized title. -/
theorem c2_dedup_amended (qin : QueryInput)
    (ssFetch : String → Nat → Except Err (List SSItem))
    (arxivFetch : String → Nat → Except Err (List ArxivResult))
    (ddgFetch : String → Nat → Except Err (List DdgResult))
    (heur : DdgHeuristics) (n : Nat) (l ss ddg : List Paper)
    (ar : List ArxivResult) (p q : Paper)
    (hss : SemanticScholarSearch.search_papers ssFetch
      ((queriesOf qin).semanticScholar.getD "") n = ss)
    (har : arxivFetch ((queriesOf qin).arxiv.getD "") n = .ok ar)
    (hddg : DuckDuckGoSearch.search_papers heur ddgFetch
      ((queriesOf qin).duckduckgo.getD "") n = ddg)
    (hout : search_all_sources qin ssFetch arxivFetch ddgFetch heur n = .ok l)
    (hp : p ∈ ss ++ ar.map arxivPaperInfo ++ ddg)
    (hq : q ∈ ss ++ ar.map arxivPaperInfo ++ ddg)
    (hpq : titleKey p = titleKey q) :
    (mergedPapers ss (ar.map arxivPaperInfo) ddg).countP
        (fun r => titleKey r == titleKey p) = 1 ∧
    (mergedPapers ss (ar.map arxivPaperInfo) ddg).find?
        (fun r => titleKey r == titleKey p)
      = (ss ++ ar.map arxivPaperInfo ++ ddg).find?
          (fun r => titleKey r == titleKey p) ∧
    l.countP (fun r => titleKey r == titleKey p) ≤ 1 := by
  have hl : l = (mergedPapers ss (ar.map arxivPaperInfo) ddg).take n := by
    simp only [search_all_sources, search_arxiv_papers, har, hss, hddg] at hout
    exact (Except.ok.injEq _ _ ▸ hout).symm
  have hmerged : mergedPapers ss (ar.map arxivPaperInfo) ddg
      = nubSeen [] (ss ++ ar.map arxivPaperInfo ++ ddg) :=
    mergedPapers_eq_nubSeen ss (ar.map arxivPaperInfo) ddg
  have hfind : (nubSeen [] (ss ++ ar.map arxivPaperInfo ++ ddg)).find?
      (fun r => titleKey r == titleKey p)
      = (ss ++ ar.map arxivPaperInfo ++ ddg).find?
          (fun r => titleKey r == titleKey p) :=
    nubSeen_find? _ [] (titleKey p) (by simp)
  have hsome : (ss ++ ar.map arxivPaperInfo ++ ddg).find?
      (fun r => titleKey r == titleKey p) ≠ none := by
    intro hnone
    rw [List.find?_eq_none] at hnone
    exact absurd (by simp : (titleKey p == titleKey p) = true)
      (by simpa using hnone p hp)
  have hcount : (mergedPapers ss (ar.map arxivPaperInfo) ddg).countP
      (fun r => titleKey r == titleKey p) = 1 := by
    rcases Option.ne_none_iff_exists'.mp hsome with ⟨r, hr⟩
    have hrn : (nubSeen [] (ss ++ ar.map arxivPaperInfo ++ ddg)).find?
        (fun x => titleKey x == titleKey p) = some r := hfind ▸ hr
    have hrmem := List.mem_of_find?_eq_some hrn
    have hrpred := List.find?_some hrn
    have hpos : 0 < (nubSeen [] (ss ++ ar.map arxivPaperInfo ++ ddg)).countP
        (fun x => titleKey x == titleKey p) :=
      List.countP_pos_iff.mpr ⟨r, hrmem, hrpred⟩
    have hle := countP_key_le_one _
      (nubSeen_keys_nodup (ss ++ ar.map arxivPaperInfo ++ ddg) []) (titleKey p)
    rw [hmerged]
    omega
  refine ⟨hcount, by rw [hmerged]; exact hfind, ?_⟩
  have hsub : l.countP (fun r => titleKey r == titleKey p)
      ≤ (mergedPapers ss (ar.map arxivPaperInfo) ddg).countP
          (fun r => titleKey r == titleKey p) := by
    rw [hl]
    exact (List.take_sublist n _).countP_le _
  omega

/-- C2 witness: `c2_dedup_amended` evaluated on the truncation scenario of
the counterexample — the merged list keeps exactly the Semantic Scholar
copy of the duplicated title, and the capped output has at most one. -/
theorem c2_dedup_amended_witness :
    (mergedPapers (SemanticScholarSearch.search_papers ssFetchAB "q" 1)
        ([arxB].map arxivPaperInfo)
        (DuckDuckGoSearch.search_papers trivialHeuristics ddgFetchEmpty "q" 1)).countP
      (fun r => titleKey r
        == titleKey (SemanticScholarSearch.extract_paper itemB)) = 1 ∧
    (mergedPapers (SemanticScholarSearch.search_papers ssFetchAB "q" 1)
        ([arxB].map arxivPaperInfo)
        (DuckDuckGoSearch.search_papers trivialHeuristics ddgFetchEmpty "q" 1)).find?
      (fun r => titleKey r
        == titleKey (SemanticScholarSearch.extract_paper itemB))
      = (SemanticScholarSearch.search_papers ssFetchAB "q" 1
          ++ [arxB].map arxivPaperInfo
          ++ DuckDuckGoSearch.search_papers trivialHeuristics ddgFetchEmpty "q" 1).find?
        (fun r => titleKey r
          == titleKey (SemanticScholarSearch.extract_paper itemB)) ∧
    [SemanticScholarSearch.extract_paper itemA].countP
      (fun r => titleKey r
        == titleKey (SemanticScholarSearch.extract_paper itemB)) ≤ 1 :=
  c2_dedup_amended (.str "q") ssFetchAB arxFetchB ddgFetchEmpty
    trivialHeuristics 1 [SemanticScholarSearch.extract_paper itemA]
    (SemanticScholarSearch.search_papers ssFetchAB "q" 1)
    (DuckDuckGoSearch.search_papers trivialHeuristics ddgFetchEmpty "q" 1)
    [arxB]
    (SemanticScholarSearch.extract_paper itemB) (arxivPaperInfo arxB)
    rfl rfl rfl rfl
    (List.mem_append_left _ (List.mem_append_left _
      (List.mem_cons_of_mem _ (List.mem_cons_self _ _))))
    (List.mem_append_left _ (List.mem_append_right _ (List.mem_cons_self _ _)))
    (by decide)

/-- C3: when the collaborator responses have pairwise distinct normalized
titles, `search_all_sources` returns exactly the concatenation of the three
per-source lists, in source-priority order and per-source response order,
truncated to the cap — the output is fully determined by the responses. -/
theorem c3_priority_order (qin : QueryInput)
    (ssFetch : String → Nat → Except Err (List SSItem))
    (arxivFetch : String → Nat → Except Err (List ArxivResult))
    (ddgFetch : String → Nat → Except Err (List DdgResult))
    (heur : DdgHeuristics) (n : Nat) (ss ddg : List Paper)
    (ar : List ArxivResult)
    (hss : SemanticScholarSearch.search_papers ssFetch
      ((queriesOf qin).semanticScholar.getD "") n = ss)
    (har : arxivFetch ((queriesOf qin).arxiv.getD "") n = .ok ar)
    (hddg : DuckDuckGoSearch.search_papers heur ddgFetch
      ((queriesOf qin).duckduckgo.getD "") n = ddg)
    (hnd : ((ss ++ ar.map arxivPaperInfo ++ ddg).map titleKey).Nodup) :
    search_all_sources qin ssFetch arxivFetch ddgFetch heur n
      = .ok ((ss ++ ar.map arxivPaperInfo ++ ddg).take n) := by
  simp only [search_all_sources, search_arxiv_papers, har, hss, hddg]
  rw [mergedPapers_eq_nubSeen, nubSeen_eq_self _ [] hnd (by simp)]

/-- C3 witness: three disjoint concrete responses merge in source-priority
order. -/
theorem c3_priority_order_witness :
    search_all_sources (.str "q") ssFetchAB arxFetchC ddgFetchEmpty
        trivialHeuristics 10
      = .ok ((SemanticScholarSearch.search_papers ssFetchAB "q" 10
          ++ [arxC].map arxivPaperInfo
          ++ DuckDuckGoSearch.search_papers trivialHeuristics ddgFetchEmpty "q" 10).take 10) :=
  c3_priority_order (.str "q") ssFetchAB arxFetchC ddgFetchEmpty
    trivialHeuristics 10
    (SemanticScholarSearch.search_papers ssFetchAB "q" 10)
    (DuckDuckGoSearch.search_papers trivialHeuristics ddgFetchEmpty "q" 10)
    [arxC] rfl rfl rfl (by decide)

/-- C5: `analyze_papers_batch` always returns one summary per input record,
index-aligned: the empty input yields the empty list (with model name
`"none"`), a totally failed or unparseable response yields one placeholder
per record, and an input index no response item addresses keeps its
placeholder instead of shortening the list. -/
theorem c5_batch_alignment (papersData : List PaperData)
    (parsed : Except Err (List BatchItem)) (usedModel : String) :
    (GeminiTranslator.analyze_papers_batch papersData parsed usedModel).1.length
      = papersData.length ∧
    GeminiTranslator.analyze_papers_batch [] parsed usedModel = ([], "none") ∧
    (∀ e : Err,
      (GeminiTranslator.analyze_papers_batch papersData (.error e) usedModel).1
        = papersData.map (fun _ => batchFailSummary)) ∧
    (∀ (items : List BatchItem) (i : Nat), i < papersData.length →
      (∀ it ∈ items, it.paperIndex ≠ (i : Int) + 1) →
      ((GeminiTranslator.analyze_papers_batch papersData (.ok items) usedModel).1)[i]?
        = some emptySummary) := by
  refine ⟨?_, rfl, ?_, ?_⟩
  · cases papersData with
    | nil => cases parsed <;> rfl
    | cons a as =>
      cases parsed with
      | error e => simp [GeminiTranslator.analyze_papers_batch]
      | ok items =>
        simp [GeminiTranslator.analyze_papers_batch, applyBatchItems_length]
  · intro e
    cases papersData <;> simp [GeminiTranslator.analyze_papers_batch]
  · intro items i hi hit
    cases papersData with
    | nil => simp at hi
    | cons a as =>
      show (applyBatchItems items ((a :: as).map (fun _ => emptySummary)))[i]?
        = some emptySummary
      rw [applyBatchItems_get_untouched items _ i hit]
      have hlen : i < ((a :: as).map
          (fun _ : PaperData => emptySummary)).length := by
        simpa using hi
      rw [List.getElem?_eq_getElem hlen]
      simp only [List.getElem_map]

/-- C5 witness: a two-paper batch whose response addresses only paper 1
keeps the placeholder at index 1 instead of shortening the list. -/
theorem c5_batch_alignment_witness :
    ((GeminiTranslator.analyze_papers_batch c5Papers (.ok c5Items)
        "gemini-3-flash").1)[1]? = some emptySummary :=
  (c5_batch_alignment c5Papers (.ok c5Items) "gemini-3-flash").2.2.2
    c5Items 1 (by decide) (by decide)

/-- C8 counterexample: when the AI response parses as valid JSON but lacks
the `arxiv` and `duckduckgo` keys, `optimize_query` returns the parsed
object (plus `original`) without those keys — no per-key fallback runs. -/
theorem c8_missing_key_counterexample :
    QueryOptimizer.optimize_query "q" (.ok [("semantic_scholar", "x")])
      = [("semantic_scholar", "x"), ("original", "q")] ∧
    dictGet (QueryOptimizer.optimize_query "q"
      (.ok [("semantic_scholar", "x")])) "arxiv" = none ∧
    dictGet (QueryOptimizer.optimize_query "q"
      (.ok [("semantic_scholar", "x")])) "duckduckgo" = none := by
  refine ⟨rfl, rfl, rfl⟩

/-- C8 (amended): `optimize_query` never raises; on any failure (exception
or unparseable JSON) it returns all three source keys plus `original`, each
mapped to the raw query; on a successfully parsed response it returns the
parsed object with `original` set to the raw query — the three source keys
are present only if the AI response supplied them. -/
theorem c8_fallback_and_original (q : String) (e : Err)
    (kvs : List (String × String)) :
    dictGet (QueryOptimizer.optimize_query q (.error e)) "semantic_scholar"
      = some q ∧
    dictGet (QueryOptimizer.optimize_query q (.error e)) "arxiv" = some q ∧
    dictGet (QueryOptimizer.optimize_query q (.error e)) "duckduckgo" = some q ∧
    dictGet (QueryOptimizer.optimize_query q (.error e)) "original" = some q ∧
    dictGet (QueryOptimizer.optimize_query q (.ok kvs)) "original" = some q :=
  ⟨rfl, rfl, rfl, rfl, dictGet_dictSet kvs "original" q⟩

/-- C10 counterexample: with `max_results = 0` and one academic result, the
DuckDuckGo collaborator returns one record, exceeding the cap: the cap is
checked only after a record has been appended. -/
theorem c10_zero_cap_counterexample :
    (DuckDuckGoSearch.search_papers trivialHeuristics ddgFetchAcademic
        "q" 0).length = 1 ∧
    ¬ ((DuckDuckGoSearch.search_papers trivialHeuristics ddgFetchAcademic
        "q" 0).length ≤ 0) := by
  refine ⟨by decide, by decide⟩

/-- C10 (amended): the DuckDuckGo collaborator never sends the raw query:
it sends the query suffixed with `" research paper pdf"`; every returned
record comes from an engine result that passed the academic heuristic; and
the output length is capped by `max_results` whenever `max_results ≥ 1`
(for `max_results = 0` one record can slip through, as the counterexample
shows). -/
theorem c10_query_and_filter (heur : DdgHeuristics)
    (fetch : String → Nat → Except Err (List DdgResult)) (q : String) (n : Nat)
    (rs : List DdgResult)
    (hf : fetch (ddgSentQuery q) (n * 3) = .ok rs) :
    ddgSentQuery q = q ++ " research paper pdf" ∧
    ddgSentQuery q ≠ q ∧
    (1 ≤ n → (DuckDuckGoSearch.search_papers heur fetch q n).length ≤ n) ∧
    (∀ p ∈ DuckDuckGoSearch.search_papers heur fetch q n,
      ∃ r ∈ rs, DuckDuckGoSearch.is_academic_result r ∧
        p = DuckDuckGoSearch.extract_paper_info heur r) := by
  refine ⟨rfl, ?_, ?_, ?_⟩
  · intro hcontra
    have hlen := congrArg String.length hcontra
    have h19 : (" research paper pdf").length = 19 := rfl
    simp only [ddgSentQuery, String.length_append, h19] at hlen
    omega
  · intro hn
    unfold DuckDuckGoSearch.search_papers
    rw [hf]
    exact ddgCollect_length_le heur n rs [] (by simpa using hn)
  · intro p hp
    unfold DuckDuckGoSearch.search_papers at hp
    rw [hf] at hp
    rcases ddgCollect_mem heur n rs [] p hp with hacc | hex
    · simp at hacc
    · exact hex

/-- C10 witness: with a mixed response (one non-academic, one academic
result) and `max_results = 1`, the sent query differs from the raw query
and the output respects the cap. -/
theorem c10_query_and_filter_witness :
    ddgSentQuery "q" ≠ "q" ∧
    (DuckDuckGoSearch.search_papers trivialHeuristics ddgFetchMixed
        "q" 1).length ≤ 1 :=
  ⟨(c10_query_and_filter trivialHeuristics ddgFetchMixed "q" 1
      [ddgNonAcademic, ddgAcademic] rfl).2.1,
   (c10_query_and_filter trivialHeuristics ddgFetchMixed "q" 1
      [ddgNonAcademic, ddgAcademic] rfl).2.2.1 (by decide)⟩
